import Mathlib

/-!
Verification development for the `csi-helper` repository.

The TypeScript sources are shallowly embedded as Lean definitions:

* `src/proxy-manager.ts` — `ProxyManager` (credential selection, sticky
  sessions, proxy agents); the mutable instance fields `sessionId` and
  `currentUrl` become the explicit state `PMState`.
* `src/usabilla-client.ts` — `UsabillaClient` (four-page submission
  protocol); the mutable fields `sessionId`/`currentId`/`currentSig` become
  the explicit state `ClientState`, and the transport outcome of a single
  HTTP exchange is passed in as an `HttpResult` value.
* `src/utils.ts` — `randomInt`, `weightedRandom`, `generateDailySchedule`;
  calls to `Math.random()` become explicit rational draws in `[0, 1)`.
* `src/scheduler.ts` — `Scheduler.executeTask`; the survey run outcome is
  passed in as a `RunOutcome` value.

JavaScript string truthiness (empty string, `null` and `undefined` are
falsy) is modelled by `truthy : Option String → Bool`, with `none` standing
for `null`/`undefined`/absent and `some s` for a present string `s`.
-/

/-- JavaScript `a.includes(b)` on strings: `b` occurs as a contiguous
substring of `a`. -/
def jsIncludes (s pattern : String) : Bool :=
  decide (pattern.toList <:+: s.toList)

/-- JavaScript truthiness of a `string | null | undefined` value: `null`,
`undefined` and the empty string are falsy. -/
def truthy : Option String → Bool
  | none => false
  | some s => s ≠ ""

/-- JavaScript `a || b` on `string | null | undefined` values: yields `b`
whenever `a` is falsy. -/
def jsOr (a b : Option String) : Option String :=
  if truthy a then a else b

/-- `ProxyConfig` from `src/config.ts`: proxy host, port, username, and the
two domain-class passwords (`PROXY_PASS_DE` / `PROXY_PASS_NON_DE`; an unset
variable loads as the empty string). -/
structure ProxyConfig where
  host : String
  port : Int
  username : String
  passwordDE : String
  passwordNonDE : String
deriving Repr, DecidableEq

/-- `ProxyServer` from `src/proxy-manager.ts`: the proxy address plus
optional credentials (`username?`/`password?`). -/
structure ProxyServer where
  server : String
  username : Option String
  password : Option String
deriving Repr, DecidableEq

/-- The mutable instance fields of `ProxyManager` (`src/proxy-manager.ts`):
the lazily generated sticky-session id and the current target URL. -/
structure PMState where
  sessionId : Option String
  currentUrl : Option String
deriving Repr, DecidableEq

/-- `ProxyManager` state as built by the constructor. -/
def pmInit : PMState := ⟨none, none⟩

/-- `ProxyManager.setCurrentUrl` (`src/proxy-manager.ts`, lines 24–26). -/
def setCurrentUrl (st : PMState) (url : String) : PMState :=
  { st with currentUrl := some url }

/-- `ProxyManager.selectPassword` (`src/proxy-manager.ts`, lines 39–48):
resolve the target URL (argument, falling back to `this.currentUrl`), then
return `passwordNonDE` when the URL is truthy and does not contain the
substring `".de"`, and `passwordDE` otherwise. -/
def selectPassword (cfg : ProxyConfig) (currentUrl : Option String)
    (url : Option String) : String :=
  let targetUrl := jsOr url currentUrl
  match targetUrl with
  | some t => if t ≠ "" ∧ ¬ jsIncludes t ".de" then cfg.passwordNonDE else cfg.passwordDE
  | none => cfg.passwordDE

/-- The proxy address string `http://host:port` built by every
`ProxyManager` method. -/
def proxyAddr (cfg : ProxyConfig) : String :=
  "http://" ++ cfg.host ++ ":" ++ toString cfg.port

/-- `ProxyManager.getProxyServer` (`src/proxy-manager.ts`, lines 55–79):
when the username or either class password is missing, log a warning and
return the bare proxy address with no credentials; otherwise attach the
username and the domain-selected password. -/
def getProxyServer (cfg : ProxyConfig) (st : PMState)
    (url : Option String) : ProxyServer :=
  let targetUrl := jsOr url st.currentUrl
  if cfg.username = "" ∨ cfg.passwordDE = "" ∨ cfg.passwordNonDE = "" then
    ⟨proxyAddr cfg, none, none⟩
  else
    ⟨proxyAddr cfg, some cfg.username,
      some (selectPassword cfg st.currentUrl targetUrl)⟩

/-- `ProxyManager.getStickyProxyServer` (`src/proxy-manager.ts`,
lines 88–118): as `getProxyServer`, but lazily generates a session id when
none exists (the fresh random id is passed in as `fresh`) and appends
`_session-<id>_lifetime-<minutes>` to the selected password. Returns the
`ProxyServer` together with the updated `ProxyManager` state. -/
def getStickyProxyServer (cfg : ProxyConfig) (st : PMState) (fresh : String)
    (sessionLifetime : Int) (url : Option String) : ProxyServer × PMState :=
  let targetUrl := jsOr url st.currentUrl
  if cfg.username = "" ∨ cfg.passwordDE = "" ∨ cfg.passwordNonDE = "" then
    (⟨proxyAddr cfg, none, none⟩, st)
  else
    let sid := match st.sessionId with
      | some s => s
      | none => fresh
    let basePassword := selectPassword cfg st.currentUrl targetUrl
    let modifiedPassword :=
      basePassword ++ "_session-" ++ sid ++ "_lifetime-" ++ toString sessionLifetime
    (⟨proxyAddr cfg, some cfg.username, some modifiedPassword⟩,
      { st with sessionId := some sid })

/-- `ProxyManager.clearSession` (`src/proxy-manager.ts`, lines 123–125). -/
def clearSession (st : PMState) : PMState :=
  { st with sessionId := none }

/-- The credentials baked into the proxy URL handed to `HttpsProxyAgent`
(URL-percent-encoding of username/password is elided as pure transport
formatting). -/
structure AgentInfo where
  username : String
  password : String
  host : String
  port : Int
deriving Repr, DecidableEq

/-- `ProxyManager.createProxyAgent` (`src/proxy-manager.ts`, lines 209–240):
throws when the username is missing, when both class passwords are missing,
or when the domain-selected password is empty; otherwise builds the agent
from the selected password. -/
def createProxyAgent (cfg : ProxyConfig) (st : PMState)
    (url : Option String) : Except String AgentInfo :=
  let targetUrl := jsOr url st.currentUrl
  if cfg.username = "" then
    .error "Proxy username not configured"
  else if cfg.passwordDE = "" ∧ cfg.passwordNonDE = "" then
    .error "Proxy passwords not configured. Set PROXY_PASS_DE and PROXY_PASS_NON_DE environment variables."
  else
    let proxyPassword := selectPassword cfg st.currentUrl targetUrl
    if proxyPassword = "" then
      .error "Selected proxy password is empty"
    else
      .ok ⟨cfg.username, proxyPassword, cfg.host, cfg.port⟩

/-- Drop a URL scheme: everything up to and including the first occurrence
of `"://"`, or the whole string unchanged when none occurs. Used only to
state the spec's "the target's domain" — the source never parses URLs. -/
def dropScheme : List Char → List Char
  | [] => []
  | c :: cs =>
    if [':', '/', '/'].isPrefixOf (c :: cs) then (c :: cs).drop 3
    else dropScheme cs

/-- The domain (host) part of a URL: what follows the scheme separator, up
to the first `/`, `:`, `?` or `#`. A spec-side notion used to state claims
about "the target's domain"; the source code itself never computes it. -/
def urlDomain (url : String) : List Char :=
  (dropScheme url.toList).takeWhile fun c => c ∉ ['/', ':', '?', '#']

/-- The spec's reference predicate: does the target URL's domain end in the
local-market suffix `".de"`? -/
def domainEndsInDe (url : String) : Bool :=
  ".de".toList.isSuffixOf (urlDomain url)

/-- The page-specific answer fields of a payload (`UsabillaPayload.data.data`
in `src/usabilla-client.ts`): exactly one variant per page. -/
inductive PageData where
  | page1 (mood : String)
  | page2 (ergonomics characteristics price : String)
  | page3 (findInfo : List String) (netEasyScore : String)
  | page4 (userVehicle goalVisit : String)
deriving Repr, DecidableEq

/-- The per-page timing entry (`UsabillaPayload.data.timing`): the single
key written for the page together with its millisecond value. -/
structure TimingEntry where
  key : String
  ms : Int
deriving Repr, DecidableEq

/-- The inner `data` object of a payload (`UsabillaPayload.data`). -/
structure PayloadData where
  data : PageData
  timing : TimingEntry
  url : String
  browser : String
  id : String
  version : Int
deriving Repr, DecidableEq

/-- `UsabillaPayload` from `src/usabilla-client.ts` (lines 6–38): the wire
payload of one page exchange. `customData` is always the empty object and
is omitted. -/
structure UsabillaPayload where
  id : Option String
  sig : Option String
  type : String
  subtype : String
  v : Int
  data : PayloadData
  done : Bool
deriving Repr, DecidableEq

/-- `UsabillaResponse` from `src/usabilla-client.ts` (lines 40–43). -/
structure UsabillaResponse where
  id : String
  sig : String
deriving Repr, DecidableEq

/-- The mutable instance fields of `UsabillaClient`
(`src/usabilla-client.ts`, lines 50–52): the per-attempt session id and the
continuation-token halves `currentId`/`currentSig`. -/
structure ClientState where
  sessionId : String
  currentId : Option String
  currentSig : Option String
deriving Repr, DecidableEq

/-- `UsabillaClient` state as built by the constructor
(`src/usabilla-client.ts`, lines 54–74): fields start `null`, the session
id is freshly generated (passed in here as `sid`). -/
def newClient (sid : String) : ClientState :=
  ⟨sid, none, none⟩

/-- `UsabillaClient.resetSession` (`src/usabilla-client.ts`, lines 221–225):
null both token halves and regenerate the session id (the fresh random id
is passed in as `sid`). -/
def resetSession (_st : ClientState) (sid : String) : ClientState :=
  ⟨sid, none, none⟩

/-- The outcome of one HTTP POST to the widget API, as seen by `submit`:
either the transport layer failed (axios threw), or an HTTP-success
response arrived whose body may or may not carry `id` and `sig` (each
`none` when absent/null, `some s` when present with value `s`). -/
inductive HttpResult where
  | transportError
  | response (respId respSig : Option String)
deriving Repr, DecidableEq

/-- The errors `submit` can raise: a propagated transport failure, or the
`Invalid response from Usabilla API` error thrown on a response without
truthy `id` and `sig`. -/
inductive SubmitError where
  | transport
  | invalidResponse
deriving Repr, DecidableEq

/-- `UsabillaClient.submit` (`src/usabilla-client.ts`, lines 189–216): on a
transport error, rethrow; on an HTTP-success response, if both `id` and
`sig` are truthy, store them into `currentId`/`currentSig` and return the
response, otherwise throw `Invalid response from Usabilla API`. The updated
client state is returned alongside the result (unchanged on every error
path). -/
def submit (st : ClientState) (_payload : UsabillaPayload) (o : HttpResult) :
    ClientState × Except SubmitError UsabillaResponse :=
  match o with
  | .transportError => (st, .error .transport)
  | .response respId respSig =>
    if truthy respId ∧ truthy respSig then
      match respId, respSig with
      | some i, some s =>
        ({ st with currentId := some i, currentSig := some s }, .ok ⟨i, s⟩)
      | none, _ => (st, .error .invalidResponse)
      | _, none => (st, .error .invalidResponse)
    else
      (st, .error .invalidResponse)

/-- The payload built by `UsabillaClient.submitPage1`
(`src/usabilla-client.ts`, lines 79–99). The `randomInt(5000, 45000)`
timing draw and the random user agent are passed in as `t` and `ua`. -/
def page1Payload (st : ClientState) (url mood : String) (t : Int)
    (ua : String) : UsabillaPayload :=
  ⟨st.currentId, st.currentSig, "campaign", "form", 1,
    ⟨.page1 mood, ⟨"Satisfaction", t⟩, url, ua, st.sessionId, 9⟩, false⟩

/-- The payload built by `UsabillaClient.submitPage2`
(`src/usabilla-client.ts`, lines 104–128). -/
def page2Payload (st : ClientState) (url ergonomics characteristics price : String)
    (t : Int) (ua : String) : UsabillaPayload :=
  ⟨st.currentId, st.currentSig, "campaign", "form", 2,
    ⟨.page2 ergonomics characteristics price, ⟨"Sub-Satisfaction", t⟩, url, ua,
      st.sessionId, 9⟩, false⟩

/-- The payload built by `UsabillaClient.submitPage3`
(`src/usabilla-client.ts`, lines 133–156); `DIFF_FindInfo` is always the
empty list. -/
def page3Payload (st : ClientState) (url netEasyScore : String) (t : Int)
    (ua : String) : UsabillaPayload :=
  ⟨st.currentId, st.currentSig, "campaign", "form", 3,
    ⟨.page3 [] netEasyScore, ⟨"Efficiency", t⟩, url, ua, st.sessionId, 9⟩, false⟩

/-- The payload built by `UsabillaClient.submitPage4`
(`src/usabilla-client.ts`, lines 161–184); the only payload with
`done = true`. -/
def page4Payload (st : ClientState) (url userVehicle goalVisit : String)
    (t : Int) (ua : String) : UsabillaPayload :=
  ⟨st.currentId, st.currentSig, "campaign", "form", 4,
    ⟨.page4 userVehicle goalVisit, ⟨"Goal_Suggestions", t⟩, url, ua,
      st.sessionId, 9⟩, true⟩

/-- `UsabillaClient.submitPage1`: build the page-1 payload from the current
state and submit it. -/
def submitPage1 (st : ClientState) (url mood : String) (t : Int) (ua : String)
    (o : HttpResult) : ClientState × Except SubmitError UsabillaResponse :=
  submit st (page1Payload st url mood t ua) o

/-- `UsabillaClient.submitPage2`: build the page-2 payload from the current
state and submit it. -/
def submitPage2 (st : ClientState) (url ergonomics characteristics price : String)
    (t : Int) (ua : String) (o : HttpResult) :
    ClientState × Except SubmitError UsabillaResponse :=
  submit st (page2Payload st url ergonomics characteristics price t ua) o

/-- `UsabillaClient.submitPage3`: build the page-3 payload from the current
state and submit it. -/
def submitPage3 (st : ClientState) (url netEasyScore : String) (t : Int)
    (ua : String) (o : HttpResult) :
    ClientState × Except SubmitError UsabillaResponse :=
  submit st (page3Payload st url netEasyScore t ua) o

/-- `UsabillaClient.submitPage4`: build the page-4 payload from the current
state and submit it. -/
def submitPage4 (st : ClientState) (url userVehicle goalVisit : String)
    (t : Int) (ua : String) (o : HttpResult) :
    ClientState × Except SubmitError UsabillaResponse :=
  submit st (page4Payload st url userVehicle goalVisit t ua) o

/-- One recorded exchange of a session run: the payload that was sent and
the result `submit` produced for it. -/
structure Exchange where
  payload : UsabillaPayload
  outcome : Except SubmitError UsabillaResponse
deriving Repr

/-- Run a sequence of page submissions against a sequence of transport
outcomes, starting from client state `st`, the way a caller of
`UsabillaClient` drives `submitPage1 .. submitPage4`: each page builds its
payload from the current state, submits it, and the run stops at the first
failed exchange (the session is abandoned — callers never continue after a
throw). Records the exchanges actually performed. -/
def runExchanges (st : ClientState) :
    List (ClientState → UsabillaPayload) → List HttpResult → List Exchange
  | [], _ => []
  | _ :: _, [] => []
  | b :: bs, o :: os =>
    let p := b st
    match submit st p o with
    | (st1, .ok r) => ⟨p, .ok r⟩ :: runExchanges st1 bs os
    | (_, .error e) => [⟨p, .error e⟩]

/-- One full four-page session of `UsabillaClient`, started from a freshly
constructed client: the exchange trace of
`submitPage1; submitPage2; submitPage3; submitPage4` under the four
transport outcomes `o1 .. o4`. -/
def runSession (sid url mood ergonomics characteristics price netEasyScore
    userVehicle goalVisit : String) (t1 t2 t3 t4 : Int)
    (ua1 ua2 ua3 ua4 : String) (o1 o2 o3 o4 : HttpResult) : List Exchange :=
  runExchanges (newClient sid)
    [fun st => page1Payload st url mood t1 ua1,
     fun st => page2Payload st url ergonomics characteristics price t2 ua2,
     fun st => page3Payload st url netEasyScore t3 ua3,
     fun st => page4Payload st url userVehicle goalVisit t4 ua4]
    [o1, o2, o3, o4]

/-- The continuation-token chaining discipline over an exchange trace: the
first payload carries the given token halves, and after every successful
exchange the next payload carries exactly the `id`/`sig` the server
returned; a failed exchange ends the trace. -/
def Chained : Option String → Option String → List Exchange → Prop
  | _, _, [] => True
  | cid, csig, e :: rest =>
    e.payload.id = cid ∧ e.payload.sig = csig ∧
      match e.outcome with
      | .ok r => Chained (some r.id) (some r.sig) rest
      | .error _ => rest = []

/-- `randomInt(min, max)` from `src/utils.ts` (lines 3–5):
`Math.floor(Math.random() * (max - min + 1)) + min`, with the
`Math.random()` draw passed in as the rational `r`. -/
def randomInt (r : ℚ) (min max : Int) : Int :=
  ⌊r * (max - min + 1 : Int)⌋ + min

/-- The scanning loop of `weightedRandom` (`src/utils.ts`, lines 15–20):
subtract each weight from the running remainder and return the first value
whose subtraction makes it non-positive; `none` when the loop falls
through. -/
def wrGo : List String → List ℚ → ℚ → Option String
  | [], _, _ => none
  | v :: vs, ws, random =>
    let w := ws.headD 0
    if random - w ≤ 0 then some v else wrGo vs ws.tail (random - w)

/-- `weightedRandom(values, weights)` from `src/utils.ts` (lines 11–23):
scale the `Math.random()` draw `r` by the total weight, scan the weights,
and fall back to the last value when the loop completes. -/
def weightedRandom (values : List String) (weights : List ℚ) (r : ℚ) : String :=
  match wrGo values weights (r * weights.sum) with
  | some v => v
  | none => (values.getLast?).getD ""

/-- A time-of-day window `{start, end}` from `generateDailySchedule`
(`src/utils.ts`, lines 63–75). -/
structure Window where
  start : Int
  «end» : Int
deriving Repr, DecidableEq

/-- `ScheduleEntry` from `src/utils.ts` (lines 57–61). -/
structure ScheduleEntry where
  url : String
  hour : Int
  minute : Int
deriving Repr, DecidableEq

/-- The window table of `generateDailySchedule` (`src/utils.ts`,
lines 64–75): three windows for `runsPerDay >= 3`, two for exactly `2`, one
otherwise. -/
def windowsFor (runsPerDay : Int) : List Window :=
  if runsPerDay ≥ 3 then [⟨8, 11⟩, ⟨12, 15⟩, ⟨17, 21⟩]
  else if runsPerDay = 2 then [⟨9, 14⟩, ⟨15, 20⟩]
  else [⟨8, 20⟩]

/-- JavaScript `array.slice(0, n)`: the first `n` elements, counting a
negative `n` from the end of the array. -/
def jsSliceTo (l : List α) (n : Int) : List α :=
  l.take (if 0 ≤ n then n.toNat else l.length - (-n).toNat)

/-- `generateDailySchedule(urls, runsPerDay)` from `src/utils.ts`
(lines 63–84): for every URL, one entry per window of
`windows.slice(0, runsPerDay)`, with `hour = randomInt(start, end)` and
`minute = randomInt(0, 59)`. The `Math.random()` draws are supplied by
`rng`, two consecutive draws per generated entry. -/
def generateDailySchedule (urls : List String) (runsPerDay : Int)
    (rng : ℕ → ℚ) : List ScheduleEntry :=
  let windows := jsSliceTo (windowsFor runsPerDay) runsPerDay
  (urls.enum).flatMap fun p =>
    (windows.enum).map fun q =>
      ⟨p.2, randomInt (rng (2 * (p.1 * windows.length + q.1))) q.2.start q.2.«end»,
        randomInt (rng (2 * (p.1 * windows.length + q.1) + 1)) 0 59⟩

/-- `SurveyEntry` from `src/report-generator.tsx`, as filled in by
`Scheduler.executeTask`. -/
structure SurveyEntry where
  url : String
  status : String
  timestamp : String
  duration : Int
  error : Option String
deriving Repr, DecidableEq

/-- What one `SurveyRunner` run did, as observed by
`Scheduler.executeTask`: either `runSurvey` returned a `SurveyResult`
(whose `status` field is `'success' | 'failed'`, here a `Bool`), or some
step of the run threw. -/
inductive RunOutcome where
  | completed (success : Bool) (timestamp : String) (duration : Int)
      (error : Option String)
  | threw (msg : String) (now : String)
deriving Repr, DecidableEq

/-- `Scheduler.executeTask` (`src/scheduler.ts`, lines 264–306): build a
`SurveyRunner`, run the survey, and record the result in the report
generator — a completed run is recorded with its own status, a thrown error
as a `'failed'` entry with duration `0`. The method consults no rate-limit
or suspension state: its only inputs are the URL and the run's outcome, and
it records an entry unconditionally. -/
def executeTask (url : String) (o : RunOutcome) : SurveyEntry :=
  match o with
  | .completed success timestamp duration error =>
    ⟨url, if success then "success" else "failed", timestamp, duration, error⟩
  | .threw msg now => ⟨url, "failed", now, 0, some msg⟩

/-- `Scheduler.executeTask` together with the `ProxyManager` state across
the run: the run calls only `ProxyManager.getProxyServer` (read-only, via
`SurveyRunner.initialize`); neither `executeTask` nor `SurveyRunner` ever
calls `clearSession`, `setCurrentUrl` or `getStickyProxyServer`, so the
`ProxyManager` state is returned unchanged. -/
def executeTaskPM (url : String) (o : RunOutcome) (pm : PMState) :
    SurveyEntry × PMState :=
  (executeTask url o, pm)

theorem dropScheme_suffix (cs : List Char) : dropScheme cs <:+ cs := by
  induction cs with
  | nil => simp [dropScheme]
  | cons c cs ih =>
    rw [dropScheme]
    split
    · exact List.drop_suffix 3 (c :: cs)
    · exact ih.trans (List.suffix_cons c cs)

theorem urlDomain_isInfix (url : String) : urlDomain url <:+: url.toList := by
  unfold urlDomain
  exact (List.takeWhile_prefix _).isInfix.trans (dropScheme_suffix url.toList).isInfix

theorem domainEndsInDe_implies_includes (url : String) :
    domainEndsInDe url = true → jsIncludes url ".de" = true := by
  intro h
  unfold domainEndsInDe at h
  rw [List.isSuffixOf_iff_suffix] at h
  unfold jsIncludes
  exact decide_eq_true (h.isInfix.trans (urlDomain_isInfix url))

/-- C3: the claim, as stated, is false on the code: `selectPassword`
classifies by substring containment of `".de"` anywhere in the URL string,
not by the domain suffix. The URL `https://foo.dev` has domain `foo.dev`,
which does not end in `".de"`, yet `selectPassword` returns the DE-class
secret (here `"pDE"`, distinct from the non-DE secret `"pNonDE"`). -/
theorem C3_counterexample :
    domainEndsInDe "https://foo.dev" = false ∧
    selectPassword ⟨"h", 1, "u", "pDE", "pNonDE"⟩ none (some "https://foo.dev") = "pDE" := by
  constructor
  · decide
  · rfl

/-- C3 (amended): `selectPassword` classifies by whether the URL string
contains the substring `".de"` anywhere. Every URL whose domain ends in
`".de"` gets the DE-class secret (the domain is a substring of the URL),
as does every URL containing `".de"` anywhere; a non-empty URL not
containing `".de"` gets the non-DE-class secret. -/
theorem C3_amended_classification (cfg : ProxyConfig) (cur : Option String)
    (url : String) :
    (domainEndsInDe url = true → selectPassword cfg cur (some url) = cfg.passwordDE) ∧
    (jsIncludes url ".de" = true → selectPassword cfg cur (some url) = cfg.passwordDE) ∧
    (url ≠ "" → jsIncludes url ".de" = false →
      selectPassword cfg cur (some url) = cfg.passwordNonDE) := by
  by_cases hu : url = ""
  · subst hu
    refine ⟨fun h => absurd h (by decide), fun h => absurd h (by decide), fun h => absurd rfl h⟩
  · have hincl : ∀ b : Bool, jsIncludes url ".de" = b →
        selectPassword cfg cur (some url) = (if b then cfg.passwordDE else cfg.passwordNonDE) := by
      intro b hb
      unfold selectPassword jsOr truthy
      cases b <;> simp_all
    refine ⟨?_, ?_, ?_⟩
    · intro h
      have := hincl true (domainEndsInDe_implies_includes url h)
      simpa using this
    · intro h
      simpa using hincl true h
    · intro _ h
      simpa using hincl false h

/-- C3 witness: `https://www.opel.de` (domain ends in `".de"`) selects the
DE secret; `https://example.com` (no `".de"` substring) selects the non-DE
secret. -/
theorem C3_witness :
    selectPassword ⟨"h", 1, "u", "pDE", "pN"⟩ none (some "https://www.opel.de") = "pDE" ∧
    selectPassword ⟨"h", 1, "u", "pDE", "pN"⟩ none (some "https://example.com") = "pN" :=
  ⟨(C3_amended_classification ⟨"h", 1, "u", "pDE", "pN"⟩ none "https://www.opel.de").1
      (by decide),
    (C3_amended_classification ⟨"h", 1, "u", "pDE", "pN"⟩ none "https://example.com").2.2
      (by decide) (by decide)⟩

/-- C4: the claim, as stated, is false on the code: with the non-DE
password missing, `getProxyServer` does not fail fast — it logs a warning
and silently returns the bare proxy address with no credentials at all (an
unauthenticated proxy), and `getStickyProxyServer` does the same. -/
theorem C4_counterexample :
    getProxyServer ⟨"proxy.example", 8080, "user", "pDE", ""⟩ pmInit none =
      ⟨"http://proxy.example:8080", none, none⟩ ∧
    getStickyProxyServer ⟨"proxy.example", 8080, "user", "pDE", ""⟩ pmInit "fresh" 10 none =
      (⟨"http://proxy.example:8080", none, none⟩, pmInit) := by
  constructor <;> rfl

/-- C4 (amended): only `createProxyAgent` fails fast with a configuration
error (missing username, both class passwords missing, or the selected
password empty); `getProxyServer` and `getStickyProxyServer` instead return
an unauthenticated proxy server (no username, no password) whenever the
username or either class password is missing. No operation ever falls back
to the other class's credential: any password handed out by
`getProxyServer` or a successful `createProxyAgent` is exactly the
domain-selected one. -/
theorem C4_amended_credential_errors (cfg : ProxyConfig) (st : PMState)
    (url : Option String) (fresh : String) (lt : Int) :
    ((cfg.username = "" ∨ cfg.passwordDE = "" ∨ cfg.passwordNonDE = "") →
      getProxyServer cfg st url = ⟨proxyAddr cfg, none, none⟩ ∧
      getStickyProxyServer cfg st fresh lt url = (⟨proxyAddr cfg, none, none⟩, st)) ∧
    (∀ pw, (getProxyServer cfg st url).password = some pw →
      pw = selectPassword cfg st.currentUrl (jsOr url st.currentUrl)) ∧
    (cfg.username = "" → ∃ msg, createProxyAgent cfg st url = .error msg) ∧
    (cfg.passwordDE = "" ∧ cfg.passwordNonDE = "" →
      ∃ msg, createProxyAgent cfg st url = .error msg) ∧
    (selectPassword cfg st.currentUrl (jsOr url st.currentUrl) = "" →
      ∃ msg, createProxyAgent cfg st url = .error msg) ∧
    (∀ a, createProxyAgent cfg st url = .ok a →
      a.username = cfg.username ∧
      a.password = selectPassword cfg st.currentUrl (jsOr url st.currentUrl) ∧
      a.password ≠ "") := by
  refine ⟨?_, ?_, ?_, ?_, ?_, ?_⟩
  · intro h
    constructor
    · unfold getProxyServer
      rw [if_pos h]
    · unfold getStickyProxyServer
      rw [if_pos h]
  · intro pw hpw
    unfold getProxyServer at hpw
    split at hpw
    · simp at hpw
    · simpa using hpw.symm
  · intro h
    refine ⟨"Proxy username not configured", ?_⟩
    unfold createProxyAgent
    rw [if_pos h]
  · intro h
    unfold createProxyAgent
    by_cases hu : cfg.username = ""
    · exact ⟨"Proxy username not configured", by rw [if_pos hu]⟩
    · refine ⟨"Proxy passwords not configured. Set PROXY_PASS_DE and PROXY_PASS_NON_DE environment variables.", ?_⟩
      rw [if_neg hu, if_pos h]
  · intro h
    unfold createProxyAgent
    by_cases hu : cfg.username = ""
    · exact ⟨"Proxy username not configured", by rw [if_pos hu]⟩
    · by_cases hb : cfg.passwordDE = "" ∧ cfg.passwordNonDE = ""
      · refine ⟨"Proxy passwords not configured. Set PROXY_PASS_DE and PROXY_PASS_NON_DE environment variables.", ?_⟩
        rw [if_neg hu, if_pos hb]
      · refine ⟨"Selected proxy password is empty", ?_⟩
        rw [if_neg hu, if_neg hb]
        simpa using h
  · intro a ha
    unfold createProxyAgent at ha
    split at ha
    · simp at ha
    · split at ha
      · simp at ha
      · dsimp only at ha
        split at ha
        · simp at ha
        · rename_i hne
          cases ha
          exact ⟨rfl, rfl, hne⟩

/-- C4 witness: a config with username missing makes `getProxyServer`
return the unauthenticated server and `createProxyAgent` raise a
configuration error. -/
theorem C4_witness :
    getProxyServer ⟨"h", 1, "", "a", "b"⟩ pmInit none =
      ⟨proxyAddr ⟨"h", 1, "", "a", "b"⟩, none, none⟩ ∧
    ∃ msg, createProxyAgent ⟨"h", 1, "", "a", "b"⟩ pmInit none = .error msg :=
  ⟨((C4_amended_credential_errors ⟨"h", 1, "", "a", "b"⟩ pmInit none "f" 10).1
      (Or.inl rfl)).1,
    (C4_amended_credential_errors ⟨"h", 1, "", "a", "b"⟩ pmInit none "f" 10).2.2.1 rfl⟩

/-- C6: the code contradicts the claim: `Scheduler.executeTask` consults no
rate-limit or suspension ledger at all — for every trigger, whatever the
prior attempt history, it unconditionally executes the run and records an
entry whose status is `"success"` or `"failed"`; no trigger is ever a
no-op reported as `"skipped"`. -/
theorem C6_executeTask_never_skips (url : String) (o : RunOutcome) :
    ((executeTask url o).status = "success" ∨ (executeTask url o).status = "failed") ∧
    (executeTask url o).url = url := by
  cases o with
  | completed success ts d e =>
    cases success <;> simp [executeTask]
  | threw m now => simp [executeTask]

/-- C7: the code contradicts the claim: `executeTask` never clears the
sticky session, so the suffix generated lazily in one run survives into the
next. Concretely, a first `getStickyProxyServer` call generates suffix
`f1`; after a full `executeTask` run boundary, the next run's
`getStickyProxyServer` call still returns a password carrying the same
`session-f1` suffix instead of a fresh `f2`. -/
theorem C7_sticky_session_leaks_across_runs :
    (getStickyProxyServer ⟨"geo.iproyal.com", 12321, "user", "pwDE", "pwNonDE"⟩
        pmInit "f1" 10 (some "https://www.opel.de")).1.password =
      some "pwDE_session-f1_lifetime-10" ∧
    (getStickyProxyServer ⟨"geo.iproyal.com", 12321, "user", "pwDE", "pwNonDE"⟩
        ((executeTaskPM "https://www.opel.de" (.completed true "t1" 5 none)
          (getStickyProxyServer ⟨"geo.iproyal.com", 12321, "user", "pwDE", "pwNonDE"⟩
            pmInit "f1" 10 (some "https://www.opel.de")).2).2)
        "f2" 10 (some "https://www.opel.de")).1.password =
      some "pwDE_session-f1_lifetime-10" := by
  constructor <;> rfl


/-- Reduction of `submit` on an HTTP-success response carrying both fields:
the truthiness test collapses to non-emptiness of the two strings. -/
theorem submit_response_some_some (st : ClientState) (p : UsabillaPayload) (iv sv : String) :
    submit st p (.response (some iv) (some sv)) =
      if iv ≠ "" ∧ sv ≠ ""
      then ({ st with currentId := some iv, currentSig := some sv }, .ok ⟨iv, sv⟩)
      else (st, .error .invalidResponse) := by
  by_cases hi : iv = "" <;> by_cases hs : sv = "" <;>
    simp [submit, truthy, hi, hs]

/-- Reduction of `submit` on an HTTP-success response missing `id` or
`sig`: always the malformed-response error, state unchanged. -/
theorem submit_response_missing (st : ClientState) (p : UsabillaPayload)
    (i s : Option String) (h : i = none ∨ s = none) :
    submit st p (.response i s) = (st, .error .invalidResponse) := by
  cases i <;> cases s <;> simp [submit, truthy] <;> simp_all

/-- C5 (amended): `submit` returns the response (and advances the
continuation token) if and only if both `id` and `sig` are present *and
non-empty* (JavaScript-truthy); a response lacking either field, or
carrying an empty string in either, is rejected with the
malformed-response error (`Invalid response from Usabilla API`) and the
client state unchanged, even though the transport layer reported HTTP
success; a transport failure is propagated as a distinct error. -/
theorem C5_amended_submit_validates_truthy_tokens (st : ClientState)
    (p : UsabillaPayload) (i s : Option String) :
    ((∃ r, (submit st p (.response i s)).2 = .ok r) ↔
      (truthy i = true ∧ truthy s = true)) ∧
    (∀ r, (submit st p (.response i s)).2 = .ok r →
      i = some r.id ∧ s = some r.sig ∧
      (submit st p (.response i s)).1 =
        { st with currentId := some r.id, currentSig := some r.sig }) ∧
    (¬ (truthy i = true ∧ truthy s = true) →
      (submit st p (.response i s)).2 = .error .invalidResponse ∧
      (submit st p (.response i s)).1 = st) ∧
    (submit st p .transportError).2 = .error .transport ∧
    (submit st p .transportError).1 = st := by
  refine ⟨⟨?_, ?_⟩, ?_, ?_, rfl, rfl⟩
  · rintro ⟨r, hr⟩
    cases i with
    | none => rw [submit_response_missing st p none s (Or.inl rfl)] at hr; simp at hr
    | some iv =>
      cases s with
      | none => rw [submit_response_missing st p _ none (Or.inr rfl)] at hr; simp at hr
      | some sv =>
        rw [submit_response_some_some] at hr
        split at hr
        · rename_i h
          simp [truthy, h.1, h.2]
        · simp at hr
  · rintro ⟨hi, hs⟩
    cases i with
    | none => simp [truthy] at hi
    | some iv =>
      cases s with
      | none => simp [truthy] at hs
      | some sv =>
        simp [truthy] at hi hs
        refine ⟨⟨iv, sv⟩, ?_⟩
        rw [submit_response_some_some, if_pos ⟨hi, hs⟩]
  · intro r hr
    cases i with
    | none => rw [submit_response_missing st p none s (Or.inl rfl)] at hr; simp at hr
    | some iv =>
      cases s with
      | none => rw [submit_response_missing st p _ none (Or.inr rfl)] at hr; simp at hr
      | some sv =>
        rw [submit_response_some_some] at hr ⊢
        split at hr
        · rename_i h
          rw [if_pos h]
          cases hr
          exact ⟨rfl, rfl, rfl⟩
        · simp at hr
  · intro h
    cases i with
    | none => rw [submit_response_missing st p none s (Or.inl rfl)]; exact ⟨rfl, rfl⟩
    | some iv =>
      cases s with
      | none => rw [submit_response_missing st p _ none (Or.inr rfl)]; exact ⟨rfl, rfl⟩
      | some sv =>
        rw [submit_response_some_some]
        rw [if_neg ?hneg]
        · exact ⟨rfl, rfl⟩
        case hneg =>
          intro hc
          exact h ⟨by simp [truthy, hc.1], by simp [truthy, hc.2]⟩

/-- C10: on every failed exchange (transport error, or a response without
truthy `id`/`sig`) the `UsabillaClient` state is unchanged — `currentId`,
`currentSig` and `sessionId` keep their prior values; `submit` never
changes `sessionId`; the state can differ from the prior one only on a
success; and `resetSession` regenerates the session id and nulls both
token halves. -/
theorem C10_failed_submit_preserves_state (st : ClientState)
    (p : UsabillaPayload) (o : HttpResult) :
    (∀ e, (submit st p o).2 = .error e → (submit st p o).1 = st) ∧
    (submit st p o).1.sessionId = st.sessionId ∧
    ((submit st p o).1 ≠ st → ∃ r, (submit st p o).2 = .ok r) ∧
    (∀ sid, resetSession st sid =
      { sessionId := sid, currentId := none, currentSig := none }) := by
  have herr : ∀ e, (submit st p o).2 = .error e → (submit st p o).1 = st := by
    intro e he
    cases o with
    | transportError => rfl
    | response i s =>
      cases i with
      | none => rw [submit_response_missing st p none s (Or.inl rfl)]
      | some iv =>
        cases s with
        | none => rw [submit_response_missing st p _ none (Or.inr rfl)]
        | some sv =>
          rw [submit_response_some_some] at he ⊢
          split at he
          · simp at he
          · rename_i h
            rw [if_neg h]
  refine ⟨herr, ?_, ?_, fun _ => rfl⟩
  · cases o with
    | transportError => rfl
    | response i s =>
      cases i with
      | none => rw [submit_response_missing st p none s (Or.inl rfl)]
      | some iv =>
        cases s with
        | none => rw [submit_response_missing st p _ none (Or.inr rfl)]
        | some sv =>
          rw [submit_response_some_some]
          split <;> rfl
  · intro hne
    cases hres : (submit st p o).2 with
    | ok r => exact ⟨r, rfl⟩
    | error e => exact absurd (herr e hres) hne

/-- C5: the claim, as stated, is false on the code: a response carrying
both fields, with `id` present but equal to the empty string, is rejected
as malformed even though both fields are present — `submit` tests
JavaScript truthiness, not presence. -/
theorem C5_counterexample :
    (Option.isSome (some "") = true ∧ Option.isSome (some "sigv") = true) ∧
    (submit (newClient "sess")
        (page1Payload (newClient "sess") "https://www.opel.de" "5" 7 "ua")
        (.response (some "") (some "sigv"))).2 = .error .invalidResponse ∧
    (submit (newClient "sess")
        (page1Payload (newClient "sess") "https://www.opel.de" "5" 7 "ua")
        (.response (some "") (some "sigv"))).1 = newClient "sess" := by
  refine ⟨⟨rfl, rfl⟩, ?_, ?_⟩ <;> rfl

/-- C5 witness: a response with non-empty `id = "tok"`, `sig = "sg"` is
accepted; one missing `sig` is rejected as malformed. -/
theorem C5_witness :
    (∃ r, (submit (newClient "s0")
        (page1Payload (newClient "s0") "u" "5" 7 "ua")
        (.response (some "tok") (some "sg"))).2 = .ok r) ∧
    (submit (newClient "s0")
        (page1Payload (newClient "s0") "u" "5" 7 "ua")
        (.response (some "tok") none)).2 = .error .invalidResponse :=
  ⟨(C5_amended_submit_validates_truthy_tokens (newClient "s0")
      (page1Payload (newClient "s0") "u" "5" 7 "ua") (some "tok") (some "sg")).1.mpr
      ⟨by decide, by decide⟩,
    ((C5_amended_submit_validates_truthy_tokens (newClient "s0")
      (page1Payload (newClient "s0") "u" "5" 7 "ua") (some "tok") none).2.2.1
      (by decide)).1⟩

/-- C10 witness: a concrete transport failure on page 2 leaves the client
state, including a previously stored token, untouched. -/
theorem C10_witness :
    (submit ⟨"s0", some "id1", some "sig1"⟩
      (page2Payload ⟨"s0", some "id1", some "sig1"⟩ "u" "5" "4" "3" 7 "ua")
      .transportError).1 = ⟨"s0", some "id1", some "sig1"⟩ :=
  (C10_failed_submit_preserves_state ⟨"s0", some "id1", some "sig1"⟩
    (page2Payload ⟨"s0", some "id1", some "sig1"⟩ "u" "5" "4" "3" 7 "ua")
    .transportError).1 .transport rfl

/-- C2: the four page payloads carry page indices `v = 1, 2, 3, 4`, with
`done = false` on pages 1–3 and `done = true` only on page 4 — for every
client state and every choice of answers, timings and user agents. -/
theorem C2_page_indices_and_done_flags (st : ClientState)
    (url mood ergonomics characteristics price netEasyScore userVehicle
      goalVisit : String) (t : Int) (ua : String) :
    (page1Payload st url mood t ua).v = 1 ∧
    (page1Payload st url mood t ua).done = false ∧
    (page2Payload st url ergonomics characteristics price t ua).v = 2 ∧
    (page2Payload st url ergonomics characteristics price t ua).done = false ∧
    (page3Payload st url netEasyScore t ua).v = 3 ∧
    (page3Payload st url netEasyScore t ua).done = false ∧
    (page4Payload st url userVehicle goalVisit t ua).v = 4 ∧
    (page4Payload st url userVehicle goalVisit t ua).done = true :=
  ⟨rfl, rfl, rfl, rfl, rfl, rfl, rfl, rfl⟩

/-- A payload builder echoes the continuation token: the payload it builds
from a client state carries exactly that state's `currentId`/`currentSig`.
All four `submitPageN` payload builders have this property. -/
def EchoTokens (b : ClientState → UsabillaPayload) : Prop :=
  ∀ st : ClientState, (b st).id = st.currentId ∧ (b st).sig = st.currentSig

/-- On a successful exchange, `submit` stores exactly the response's `id`
and `sig` into the client state and leaves the session id unchanged. -/
theorem submit_ok_state (st : ClientState) (p : UsabillaPayload) (o : HttpResult)
    (st1 : ClientState) (r : UsabillaResponse) (h : submit st p o = (st1, .ok r)) :
    st1.currentId = some r.id ∧ st1.currentSig = some r.sig ∧
      st1.sessionId = st.sessionId := by
  cases o with
  | transportError => simp [submit] at h
  | response i s =>
    cases i with
    | none => rw [submit_response_missing st p none s (Or.inl rfl)] at h; simp at h
    | some iv =>
      cases s with
      | none => rw [submit_response_missing st p _ none (Or.inr rfl)] at h; simp at h
      | some sv =>
        rw [submit_response_some_some] at h
        split at h
        · obtain ⟨h1, h2⟩ := Prod.mk.injEq .. ▸ h
          cases h2
          cases h1
          exact ⟨rfl, rfl, rfl⟩
        · simp at h

/-- Any run of token-echoing page builders is chained: the first payload
carries the starting state's token halves, and each payload after a
successful exchange carries exactly the token that exchange returned. -/
theorem runExchanges_chained (bs : List (ClientState → UsabillaPayload))
    (os : List HttpResult) (st : ClientState) (hb : ∀ b ∈ bs, EchoTokens b) :
    Chained st.currentId st.currentSig (runExchanges st bs os) := by
  induction bs generalizing st os with
  | nil => cases os <;> simp [runExchanges, Chained]
  | cons b bs ih =>
    cases os with
    | nil => simp [runExchanges, Chained]
    | cons o os =>
      have hbhd : EchoTokens b := hb b (by simp)
      have hbtl : ∀ x ∈ bs, EchoTokens x := fun x hx => hb x (by simp [hx])
      simp only [runExchanges]
      cases hsub : submit st (b st) o with
      | mk st1 res =>
        cases res with
        | ok r =>
          simp only [Chained]
          refine ⟨(hbhd st).1, (hbhd st).2, ?_⟩
          obtain ⟨h1, h2, -⟩ := submit_ok_state st (b st) o st1 r hsub
          have := ih os st1 hbtl
          rwa [h1, h2] at this
        | error e =>
          simp only [Chained]
          exact ⟨(hbhd st).1, (hbhd st).2, trivial⟩

/-- C1: a freshly constructed `UsabillaClient` (and one after
`resetSession`) has `currentId = currentSig = null`; `submit` overwrites
them with the response's `id`/`sig` exactly on a successful exchange; and
in a full session run the page-1 payload carries `null` tokens while every
later payload echoes verbatim the `{id, sig}` pair returned by the
previous exchange's response. -/
theorem C1_continuation_token_chaining (sid url mood ergonomics characteristics
      price netEasyScore userVehicle goalVisit : String) (t1 t2 t3 t4 : Int)
    (ua1 ua2 ua3 ua4 : String) (o1 o2 o3 o4 : HttpResult) (st : ClientState)
    (sid2 : String) (p : UsabillaPayload) (o : HttpResult) (st1 : ClientState)
    (r : UsabillaResponse) :
    (newClient sid).currentId = none ∧ (newClient sid).currentSig = none ∧
    (resetSession st sid2).currentId = none ∧ (resetSession st sid2).currentSig = none ∧
    (submit st p o = (st1, .ok r) →
      st1.currentId = some r.id ∧ st1.currentSig = some r.sig) ∧
    Chained none none (runSession sid url mood ergonomics characteristics price
      netEasyScore userVehicle goalVisit t1 t2 t3 t4 ua1 ua2 ua3 ua4 o1 o2 o3 o4) := by
  refine ⟨rfl, rfl, rfl, rfl, ?_, ?_⟩
  · intro h
    obtain ⟨h1, h2, -⟩ := submit_ok_state st p o st1 r h
    exact ⟨h1, h2⟩
  · have hb : ∀ b ∈ [fun st => page1Payload st url mood t1 ua1,
        fun st => page2Payload st url ergonomics characteristics price t2 ua2,
        fun st => page3Payload st url netEasyScore t3 ua3,
        fun st => page4Payload st url userVehicle goalVisit t4 ua4], EchoTokens b := by
      intro b hbmem
      simp only [List.mem_cons, List.not_mem_nil, or_false] at hbmem
      rcases hbmem with h | h | h | h <;> subst h <;> exact fun st => ⟨rfl, rfl⟩
    exact runExchanges_chained _ [o1, o2, o3, o4] (newClient sid) hb

/-- The scanning loop of `weightedRandom` returns the first value whose
cumulative weight reaches the scaled draw: for positive weights matching
the values in length and a draw bounded by the total weight, `wrGo` yields
`values[i]` for the least `i` with `random ≤ w₀ + … + wᵢ`. -/
theorem wrGo_spec (vs : List String) : ∀ (ws : List ℚ) (random : ℚ),
    ws.length = vs.length → (∀ w ∈ ws, 0 < w) → vs ≠ [] → random ≤ ws.sum →
    ∃ i, ∃ hi : i < vs.length, wrGo vs ws random = some (vs.get ⟨i, hi⟩) ∧
      random ≤ (ws.take (i + 1)).sum ∧ ∀ j < i, (ws.take (j + 1)).sum < random := by
  induction vs with
  | nil => intro ws random _ _ hne _; exact absurd rfl hne
  | cons v vs ih =>
    intro ws random hlen hpos _ hle
    cases ws with
    | nil => simp at hlen
    | cons w ws =>
      by_cases hstop : random - w ≤ 0
      · refine ⟨0, by simp, ?_, ?_, by omega⟩
        · simp [wrGo, hstop]
        · simpa using by linarith
      · push_neg at hstop
        cases vs with
        | nil =>
          cases ws with
          | nil => simp at hle; linarith
          | cons w2 ws2 => simp at hlen
        | cons v2 vs2 =>
          have hlen2 : ws.length = (v2 :: vs2).length := by simpa using hlen
          have hpos2 : ∀ x ∈ ws, 0 < x := fun x hx => hpos x (by simp [hx])
          have hle2 : random - w ≤ ws.sum := by
            simp at hle; linarith
          obtain ⟨i, hi, hgo, hcum, hlo⟩ :=
            ih ws (random - w) hlen2 hpos2 (by simp) hle2
          refine ⟨i + 1, by simpa using Nat.succ_lt_succ hi, ?_, ?_, ?_⟩
          · have : wrGo (v :: v2 :: vs2) (w :: ws) random = wrGo (v2 :: vs2) ws (random - w) := by
              simp [wrGo, hstop, not_le.mpr hstop]
            rw [this, hgo]
            rfl
          · simp only [List.take_succ_cons, List.sum_cons]
            linarith
          · intro j hj
            cases j with
            | zero => simpa using hstop
            | succ j2 =>
              have := hlo j2 (by omega)
              simp only [List.take_succ_cons, List.sum_cons]
              linarith

/-- C9: for a non-empty values list, an equal-length list of positive
weights, and a draw `r ∈ [0, 1)`, `weightedRandom` returns an element of
the values list — namely the value whose normalized cumulative-weight
interval contains `r`: the first index `i` with
`r ≤ (w₀ + … + wᵢ) / Σw` (the weights need not sum to 1; the division by
`Σw` is the normalization). -/
theorem C9_weightedRandom_cumulative_selection (values : List String)
    (weights : List ℚ) (r : ℚ) (hne : values ≠ [])
    (hlen : weights.length = values.length) (hpos : ∀ w ∈ weights, 0 < w)
    (hr0 : 0 ≤ r) (hr1 : r < 1) :
    weightedRandom values weights r ∈ values ∧
    ∃ i, ∃ hi : i < values.length,
      weightedRandom values weights r = values.get ⟨i, hi⟩ ∧
      r ≤ (weights.take (i + 1)).sum / weights.sum ∧
      ∀ j < i, (weights.take (j + 1)).sum / weights.sum < r := by
  have hwne : weights ≠ [] := by
    intro h
    subst h
    simp at hlen
    exact hne (List.length_eq_zero.mp hlen.symm)
  have hW : 0 < weights.sum := List.sum_pos weights hpos hwne
  have hle : r * weights.sum ≤ weights.sum := by
    nlinarith
  obtain ⟨i, hi, hgo, hcum, hlo⟩ :=
    wrGo_spec values weights (r * weights.sum) hlen hpos hne hle
  have hwr : weightedRandom values weights r = values.get ⟨i, hi⟩ := by
    unfold weightedRandom
    rw [hgo]
  refine ⟨hwr ▸ List.get_mem values i hi, i, hi, hwr, ?_, ?_⟩
  · rw [le_div_iff₀ hW]
    exact hcum
  · intro j hj
    rw [div_lt_iff₀ hW]
    exact hlo j hj

/-- C9 witness: `weightedRandom` on values `3/4/5` with weights `2/3/5`
and draw `1/2` returns one of the configured values. -/
theorem C9_witness :
    weightedRandom ["3", "4", "5"] [2, 3, 5] (1 / 2) ∈ ["3", "4", "5"] :=
  (C9_weightedRandom_cumulative_selection ["3", "4", "5"] [2, 3, 5] (1 / 2)
    (by decide) (by decide) (by decide) (by norm_num) (by norm_num)).1

/-- `randomInt` stays in range: for a draw in `[0, 1)` and `min ≤ max`,
`randomInt r min max ∈ [min, max]`. -/
theorem randomInt_bound (r : ℚ) (min max : Int) (hr0 : 0 ≤ r) (hr1 : r < 1)
    (hmm : min ≤ max) : min ≤ randomInt r min max ∧ randomInt r min max ≤ max := by
  unfold randomInt
  have hc : (0 : ℚ) < ((max - min + 1 : Int) : ℚ) := by
    have : (1 : Int) ≤ max - min + 1 := by omega
    exact_mod_cast lt_of_lt_of_le Int.zero_lt_one this
  constructor
  · have h0 : (0 : ℚ) ≤ r * ((max - min + 1 : Int) : ℚ) := mul_nonneg hr0 (le_of_lt hc)
    have := Int.floor_nonneg.mpr h0
    omega
  · have hlt : r * ((max - min + 1 : Int) : ℚ) < ((max - min + 1 : Int) : ℚ) :=
      mul_lt_of_lt_one_left hc hr1
    have := Int.floor_lt.mpr hlt
    omega

/-- The window tables of `generateDailySchedule` are pairwise disjoint
(each window ends strictly before the next begins) and well-formed
(`start ≤ end`), for every `runsPerDay`. -/
theorem windowsFor_sound (runsPerDay : Int) :
    List.Pairwise (fun w1 w2 : Window => w1.«end» < w2.start) (windowsFor runsPerDay) ∧
    ∀ w ∈ windowsFor runsPerDay, w.start ≤ w.«end» := by
  unfold windowsFor
  split
  · exact ⟨by decide, by decide⟩
  · split
    · exact ⟨by decide, by decide⟩
    · exact ⟨by decide, by decide⟩

/-- C8: for every target list and configured `runsPerDay ≥ 0`, with all
random draws in `[0, 1)`: the schedule takes at most `runsPerDay` windows
from a pairwise-disjoint window set, produces exactly one entry per taken
window per target (`urls.length * windows.length` entries), and every
entry names a configured target, has its hour inside its window's
`[start, end]` range and its minute in `[0, 59]`. -/
theorem C8_generateDailySchedule_windows (urls : List String)
    (runsPerDay : Int) (rng : ℕ → ℚ)
    (hrng : ∀ k, 0 ≤ rng k ∧ rng k < 1) (hn : 0 ≤ runsPerDay) :
    (jsSliceTo (windowsFor runsPerDay) runsPerDay).length ≤ runsPerDay.toNat ∧
    List.Pairwise (fun w1 w2 : Window => w1.«end» < w2.start) (windowsFor runsPerDay) ∧
    (generateDailySchedule urls runsPerDay rng).length =
      urls.length * (jsSliceTo (windowsFor runsPerDay) runsPerDay).length ∧
    ∀ e ∈ generateDailySchedule urls runsPerDay rng,
      e.url ∈ urls ∧ 0 ≤ e.minute ∧ e.minute ≤ 59 ∧
      ∃ w ∈ jsSliceTo (windowsFor runsPerDay) runsPerDay,
        w.start ≤ e.hour ∧ e.hour ≤ w.«end» := by
  refine ⟨?_, (windowsFor_sound runsPerDay).1, ?_, ?_⟩
  · unfold jsSliceTo
    rw [if_pos hn]
    exact le_trans (List.length_take_le _ _) (le_refl _)
  · unfold generateDailySchedule
    rw [List.length_flatMap]
    have hmap : ∀ p ∈ urls.enum,
        ((List.length ∘ fun p : ℕ × String =>
          (jsSliceTo (windowsFor runsPerDay) runsPerDay).enum.map fun q =>
            ({ url := p.2,
               hour := randomInt (rng (2 * (p.1 * (jsSliceTo (windowsFor runsPerDay) runsPerDay).length + q.1))) q.2.start q.2.«end»,
               minute := randomInt (rng (2 * (p.1 * (jsSliceTo (windowsFor runsPerDay) runsPerDay).length + q.1) + 1)) 0 59 } : ScheduleEntry)) p)
          = (jsSliceTo (windowsFor runsPerDay) runsPerDay).length := by
      intro p _
      simp [List.enum_length]
    rw [List.map_congr_left hmap, List.map_const', List.sum_replicate, List.enum_length,
      smul_eq_mul]
  · intro e he
    unfold generateDailySchedule at he
    rw [List.mem_flatMap] at he
    obtain ⟨p, hp, he2⟩ := he
    rw [List.mem_map] at he2
    obtain ⟨q, hq, he3⟩ := he2
    subst he3
    have hw : q.2 ∈ jsSliceTo (windowsFor runsPerDay) runsPerDay :=
      List.snd_mem_of_mem_enum hq
    have hws : q.2.start ≤ q.2.«end» :=
      (windowsFor_sound runsPerDay).2 q.2
        (List.take_subset _ _ hw)
    have hrk1 := hrng (2 * (p.1 * (jsSliceTo (windowsFor runsPerDay) runsPerDay).length + q.1))
    have hrk2 := hrng (2 * (p.1 * (jsSliceTo (windowsFor runsPerDay) runsPerDay).length + q.1) + 1)
    obtain ⟨hh1, hh2⟩ := randomInt_bound _ q.2.start q.2.«end» hrk1.1 hrk1.2 hws
    obtain ⟨hm1, hm2⟩ := randomInt_bound _ 0 59 hrk2.1 hrk2.2 (by omega)
    exact ⟨List.snd_mem_of_mem_enum hp, hm1, hm2, q.2, hw, hh1, hh2⟩

/-- C8 witness: one target with three runs per day yields exactly one
entry per window (three windows taken). -/
theorem C8_witness :
    (generateDailySchedule ["https://www.opel.de"] 3 (fun _ => 1 / 2)).length =
      1 * (jsSliceTo (windowsFor 3) 3).length :=
  (C8_generateDailySchedule_windows ["https://www.opel.de"] 3 (fun _ => 1 / 2)
    (fun _ => ⟨by norm_num, by norm_num⟩) (by norm_num)).2.2.1

/-- C1 witness: a concrete successful page-1 exchange returning
`id = "i1"`, `sig = "s1"` leaves the client state holding exactly those
token halves. -/
theorem C1_witness :
    (⟨"sid", some "i1", some "s1"⟩ : ClientState).currentId = some "i1" ∧
    (⟨"sid", some "i1", some "s1"⟩ : ClientState).currentSig = some "s1" :=
  (C1_continuation_token_chaining "sid" "u" "5" "4" "3" "2" "ne" "uv" "gv"
    1 2 3 4 "a" "b" "c" "d" .transportError .transportError .transportError
    .transportError (newClient "sid") "sid2"
    (page1Payload (newClient "sid") "u" "5" 7 "ua")
    (.response (some "i1") (some "s1")) ⟨"sid", some "i1", some "s1"⟩
    ⟨"i1", "s1"⟩).2.2.2.2.1 rfl
